import Mathlib

/-!
# Food-donation backend: auth controller and donation schema

A shallow embedding of `src/auth-controller.js` (the `register` and `login`
handlers) and of `src/donation-model.js` (the Mongoose `DonationSchema`),
followed by the properties proved about them.

The handlers call three collaborators that are not part of the two source
files: the `User` model, `jwt.sign` and `process.env.JWT_SECRET`.  They are
parameters of the embedding, so every theorem holds for all of them.
-/

namespace GSC

/-! ## JavaScript values -/

/-- A JavaScript number.  Finite values are kept as rationals: every finite
double is a rational, and the only operations used below (`>=` against a
constant, being a whole number) are exact on doubles. -/
inductive JsNumber where
  | finite (q : ℚ)
  | posInf
  | negInf
  | nan
  deriving DecidableEq

/-- A JavaScript value, as far as the handlers can observe one. -/
inductive Val where
  | undefined
  | null
  | bool (b : Bool)
  | num (n : JsNumber)
  | str (s : String)
  | object (fields : List (String × Val))

namespace Val

/-- The test `v == null`: true exactly for `undefined` and `null`. -/
def isNullish : Val → Bool
  | .undefined => true
  | .null => true
  | _ => false

/-- JavaScript truthiness, as used by `if (v)` and `!v`. -/
def truthy : Val → Bool
  | .undefined => false
  | .null => false
  | .bool b => b
  | .num (.finite q) => decide (q ≠ 0)
  | .num .nan => false
  | .num _ => true
  | .str s => decide (s ≠ "")
  | .object _ => true

/-- Own-property lookup in a field list; the first binding of a key wins. -/
def lookupField (k : String) : List (String × Val) → Option Val
  | [] => none
  | (k', v) :: rest => if k' = k then some v else lookupField k rest

/-- The property read `v.k` on a value that is not nullish: an object yields the
field or `undefined`; a primitive has none of the property names read in this
program (`name`, `email`, `password`, `userType`, `message`). -/
def prop (v : Val) (k : String) : Val :=
  match v with
  | .object fields => (lookupField k fields).getD .undefined
  | _ => .undefined

/-- Whether an object value has an own property `k`. -/
def hasField (v : Val) (k : String) : Bool :=
  match v with
  | .object fields => (lookupField k fields).isSome
  | _ => false

/-- The names of an object's own properties, in order. -/
def keys : Val → List String
  | .object fields => fields.map Prod.fst
  | _ => []

end Val

/-- The `TypeError` the runtime throws when a property is read from, or a
pattern is destructured against, `undefined` or `null`. -/
def typeError (msg : String) : Val :=
  .object [("name", .str "TypeError"), ("message", .str msg)]

/-- How the text of a `TypeError` names a nullish value. -/
def nullishName : Val → String
  | .null => "null"
  | _ => "undefined"

/-- The read `v.k`, which throws a `TypeError` when `v` is `undefined` or `null`. -/
def readProp (v : Val) (k : String) : Except Val Val :=
  if v.isNullish then
    .error (typeError
      ("Cannot read properties of " ++ nullishName v ++ " (reading '" ++ k ++ "')"))
  else .ok (v.prop k)

/-! ## Collaborators of the handlers -/

/-- A document of the `User` model with the properties the handlers read. -/
structure UserDoc where
  _id : Val
  name : Val
  email : Val
  password : Val
  userType : Val

/-- The `User` model of `../models/User`, over a user directory of type `σ`.
`findOne` is a read; `create` is `new User(fields)`; `save` is `user.save()`: it
yields the document as it is after the call (the same `user` the handler goes on
reading) together with the directory afterwards, or throws;
`comparePassword` is the document's method. -/
structure UserModel (σ : Type) where
  findOne : Val → σ → Except Val (Option UserDoc)
  create : Val → UserDoc
  save : UserDoc → σ → Except Val UserDoc × σ
  comparePassword : UserDoc → Val → Except Val Val

/-- The function `jwt.sign(payload, secret, options)`: a token string, or a throw. -/
structure Jwt where
  sign : Val → Val → Val → Except Val String

/-- An incoming request: only `req.body` is read. -/
structure Request where
  body : Val

/-- What `res.status(code).json(body)` records; `body` is the object handed to
`json`, before serialisation. -/
structure Response where
  status : Nat
  body : Val

/-- The calls a handler makes on its collaborators, in order. -/
inductive Call where
  | findOne (query : Val)
  | create (fields : Val)
  | save (doc : UserDoc)
  | comparePassword (doc : UserDoc) (candidate : Val)
  | sign (payload secret options : Val)

/-- The end of a handler run: the response sent, or the value with which the
handler's promise rejects; the user directory afterwards; the calls made. -/
structure Outcome (σ : Type) where
  result : Except Val Response
  db : σ
  calls : List Call

/-- The response `res.json(body)`: the status stays at its initial 200. -/
def Response.json (body : Val) : Response := ⟨200, body⟩

/-- The filter `{ email }` passed to `User.findOne`. -/
def emailQuery (email : Val) : Val := .object [("email", email)]

/-- The payload `{ id: user._id, email: user.email }` of the token. -/
def tokenPayload (user : UserDoc) : Val :=
  .object [("id", user._id), ("email", user.email)]

/-- The options `{ expiresIn: '1h' }` of the token. -/
def tokenOptions : Val := .object [("expiresIn", .str "1h")]

/-- The projection `{ id, name, email, userType }` of a user put in a response. -/
def publicUser (user : UserDoc) : Val :=
  .object [("id", user._id), ("name", user.name), ("email", user.email),
    ("userType", user.userType)]

/-- The destructuring `const { ... } = req.body`, which throws a `TypeError`
naming the first property of the pattern when the body is `undefined` or `null`. -/
def destructureBody (req : Request) (first : String) : Except Val Val :=
  if req.body.isNullish then
    .error (typeError
      ("Cannot destructure property '" ++ first ++ "' of 'req.body' as it is " ++
        nullishName req.body ++ "."))
  else .ok req.body

/-! ## The handlers -/

/-- The `catch (error)` block of both handlers:
`res.status(500).json({ message: label, error: error.message })`. -/
def catchBlock (label : String) (error : Val) : Except Val Response :=
  match readProp error "message" with
  | .error e => .error e
  | .ok m => .ok ⟨500, .object [("message", .str label), ("error", m)]⟩

/-- The `try` block of `register` (lines 6-40). -/
def registerTry {σ : Type} (U : UserModel σ) (J : Jwt) (secret : Val)
    (req : Request) (db : σ) : Outcome σ :=
  match destructureBody req "name" with
  | .error e => ⟨.error e, db, []⟩
  | .ok body =>
    let name := body.prop "name"
    let email := body.prop "email"
    let password := body.prop "password"
    let userType := body.prop "userType"
    match U.findOne (emailQuery email) db with
    | .error e => ⟨.error e, db, [.findOne (emailQuery email)]⟩
    | .ok (some _) =>
      ⟨.ok ⟨400, .object [("message", .str "User already exists")]⟩, db,
        [.findOne (emailQuery email)]⟩
    | .ok none =>
      let fields : Val := .object [("name", name), ("email", email),
        ("password", password), ("userType", userType)]
      let user := U.create fields
      match U.save user db with
      | (.error e, db') =>
        ⟨.error e, db', [.findOne (emailQuery email), .create fields, .save user]⟩
      | (.ok saved, db') =>
        let calls := [Call.findOne (emailQuery email), .create fields, .save user,
          .sign (tokenPayload saved) secret tokenOptions]
        match J.sign (tokenPayload saved) secret tokenOptions with
        | .error e => ⟨.error e, db', calls⟩
        | .ok token =>
          ⟨.ok ⟨201, .object [("message", .str "User registered successfully"),
            ("token", .str token), ("user", publicUser saved)]⟩, db', calls⟩

/-- The handler `exports.register` (lines 4-44). -/
def register {σ : Type} (U : UserModel σ) (J : Jwt) (secret : Val)
    (req : Request) (db : σ) : Outcome σ :=
  let t := registerTry U J secret req db
  match t.result with
  | .ok r => ⟨.ok r, t.db, t.calls⟩
  | .error e => ⟨catchBlock "Registration failed" e, t.db, t.calls⟩

/-- The `try` block of `login` (lines 48-77). -/
def loginTry {σ : Type} (U : UserModel σ) (J : Jwt) (secret : Val)
    (req : Request) (db : σ) : Outcome σ :=
  match destructureBody req "email" with
  | .error e => ⟨.error e, db, []⟩
  | .ok body =>
    let email := body.prop "email"
    let password := body.prop "password"
    match U.findOne (emailQuery email) db with
    | .error e => ⟨.error e, db, [.findOne (emailQuery email)]⟩
    | .ok none =>
      ⟨.ok ⟨401, .object [("message", .str "Invalid credentials")]⟩, db,
        [.findOne (emailQuery email)]⟩
    | .ok (some user) =>
      match U.comparePassword user password with
      | .error e =>
        ⟨.error e, db, [.findOne (emailQuery email), .comparePassword user password]⟩
      | .ok isMatch =>
        if !isMatch.truthy then
          ⟨.ok ⟨401, .object [("message", .str "Invalid credentials")]⟩, db,
            [.findOne (emailQuery email), .comparePassword user password]⟩
        else
          let calls := [Call.findOne (emailQuery email), .comparePassword user password,
            .sign (tokenPayload user) secret tokenOptions]
          match J.sign (tokenPayload user) secret tokenOptions with
          | .error e => ⟨.error e, db, calls⟩
          | .ok token =>
            ⟨.ok (Response.json (.object [("token", .str token), ("user", publicUser user)])),
              db, calls⟩

/-- The handler `exports.login` (lines 46-81). -/
def login {σ : Type} (U : UserModel σ) (J : Jwt) (secret : Val)
    (req : Request) (db : σ) : Outcome σ :=
  let t := loginTry U J secret req db
  match t.result with
  | .ok r => ⟨.ok r, t.db, t.calls⟩
  | .error e => ⟨catchBlock "Login failed" e, t.db, t.calls⟩

/-! ## A concrete user directory, used to instantiate the theorems -/

/-- An in-memory `findOne`: the first stored user whose email is the string asked for. -/
def memFindOne (query : Val) (db : List UserDoc) : Except Val (Option UserDoc) :=
  match query.prop "email" with
  | .str e => .ok (db.find? fun u => match u.email with
      | .str e' => e' == e
      | _ => false)
  | _ => .ok none

/-- An in-memory `User` model: `save` appends, passwords are compared as strings. -/
def memModel : UserModel (List UserDoc) where
  findOne := memFindOne
  create := fun fields =>
    ⟨.str "u1", fields.prop "name", fields.prop "email", fields.prop "password",
      fields.prop "userType"⟩
  save := fun u db => (.ok u, db ++ [u])
  comparePassword := fun u candidate =>
    match u.password, candidate with
    | .str a, .str b => .ok (.bool (a == b))
    | _, _ => .ok (.bool false)

/-- A `User` model whose lookup rejects with the given value. -/
def failingModel (thrown : Val) : UserModel Unit where
  findOne := fun _ _ => .error thrown
  create := fun fields =>
    ⟨.str "u1", fields.prop "name", fields.prop "email", fields.prop "password",
      fields.prop "userType"⟩
  save := fun u db => (.ok u, db)
  comparePassword := fun _ _ => .ok (.bool false)

/-- A signer that always yields the same token text. -/
def constJwt : Jwt := ⟨fun _ _ _ => .ok "t0"⟩

/-- The stored user of the examples. -/
def ana : UserDoc := ⟨.str "u0", .str "Ana", .str "a@x.com", .str "pw123", .str "donor"⟩

/-- A request whose body holds the given string fields. -/
def mkRequest (fields : List (String × String)) : Request :=
  ⟨.object (fields.map fun kv => (kv.1, Val.str kv.2))⟩

/-! ## Conditions under which the claims are stated -/

/-- A login run that fails on an unknown email: the body is readable and the
lookup by its email finds nobody. -/
def UnknownEmail {σ : Type} (U : UserModel σ) (req : Request) (db : σ) : Prop :=
  req.body.isNullish = false ∧
    U.findOne (emailQuery (req.body.prop "email")) db = .ok none

/-- A login run that fails on a wrong password: the lookup finds a user whose
`comparePassword` answers `false` for the password sent. -/
def WrongPassword {σ : Type} (U : UserModel σ) (req : Request) (db : σ) : Prop :=
  req.body.isNullish = false ∧
    ∃ u, U.findOne (emailQuery (req.body.prop "email")) db = .ok (some u) ∧
      U.comparePassword u (req.body.prop "password") = .ok (.bool false)

/-- The response `401 { message: 'Invalid credentials' }`. -/
def invalidCredentials : Response :=
  ⟨401, .object [("message", .str "Invalid credentials")]⟩

/-- The object `new User({ name, email, password, userType })` is built from. -/
def registerFields (req : Request) : Val :=
  .object [("name", req.body.prop "name"), ("email", req.body.prop "email"),
    ("password", req.body.prop "password"), ("userType", req.body.prop "userType")]

/-- Some step of the `try` block of `register` throws `e`: the destructuring of
the body, the lookup, the save, or the signing, each reached only when the
steps before it succeeded and did not end the handler. -/
def RegisterThrows {σ : Type} (U : UserModel σ) (J : Jwt) (secret : Val)
    (req : Request) (db : σ) (e : Val) : Prop :=
  (req.body.isNullish = true ∧ destructureBody req "name" = .error e) ∨
  (req.body.isNullish = false ∧
    (U.findOne (emailQuery (req.body.prop "email")) db = .error e ∨
      (U.findOne (emailQuery (req.body.prop "email")) db = .ok none ∧
        ((U.save (U.create (registerFields req)) db).1 = .error e ∨
          ∃ saved, (U.save (U.create (registerFields req)) db).1 = .ok saved ∧
            J.sign (tokenPayload saved) secret tokenOptions = .error e))))

/-- Some step of the `try` block of `login` throws `e`: the destructuring of the
body, the lookup, the password comparison, or the signing, each reached only
when the steps before it succeeded and did not end the handler. -/
def LoginThrows {σ : Type} (U : UserModel σ) (J : Jwt) (secret : Val)
    (req : Request) (db : σ) (e : Val) : Prop :=
  (req.body.isNullish = true ∧ destructureBody req "email" = .error e) ∨
  (req.body.isNullish = false ∧
    (U.findOne (emailQuery (req.body.prop "email")) db = .error e ∨
      ∃ user, U.findOne (emailQuery (req.body.prop "email")) db = .ok (some user) ∧
        (U.comparePassword user (req.body.prop "password") = .error e ∨
          ∃ isMatch, U.comparePassword user (req.body.prop "password") = .ok isMatch ∧
            isMatch.truthy = true ∧
            J.sign (tokenPayload user) secret tokenOptions = .error e)))

/-! ## The donation schema

`src/donation-model.js` declares `DonationSchema`; Mongoose interprets the
declaration when a document is built (`new Donation(input)`: casting, setters,
defaults) and when it is saved (validators).  The definitions below follow the
declaration path by path, with the behaviour Mongoose has for each option.
Input fields are typed (an absent field is
`none`), so values of the wrong JavaScript type are outside the model, except
`NaN`. -/

/-- The code points of ECMAScript `WhiteSpace` and `LineTerminator`, which
`String.prototype.trim` strips. -/
def isJsWhiteSpace (c : Char) : Bool :=
  let n := c.toNat
  n == 0x09 || n == 0x0A || n == 0x0B || n == 0x0C || n == 0x0D || n == 0x20 ||
    n == 0xA0 || n == 0x1680 || (0x2000 ≤ n && n ≤ 0x200A) || n == 0x2028 ||
    n == 0x2029 || n == 0x202F || n == 0x205F || n == 0x3000 || n == 0xFEFF

/-- The setter `trim: true`: `String.prototype.trim`. -/
def jsTrim (s : String) : String :=
  String.mk ((s.toList.dropWhile isJsWhiteSpace).reverse.dropWhile isJsWhiteSpace).reverse

namespace JsNumber

/-- The comparison `v >= m` against a finite bound. -/
def ge : JsNumber → ℚ → Bool
  | .finite q, m => decide (m ≤ q)
  | .posInf, _ => true
  | .negInf, _ => false
  | .nan, _ => false

/-- The comparison `v < m` against a finite bound. -/
def lt : JsNumber → ℚ → Bool
  | .finite q, m => decide (q < m)
  | .posInf, _ => false
  | .negInf, _ => true
  | .nan, _ => false

/-- The test `Number.isInteger(v)`: a finite whole number. -/
def isInteger : JsNumber → Bool
  | .finite q => decide (q.den = 1)
  | _ => false

/-- The test `isNaN(v)`. -/
def isNaN : JsNumber → Bool
  | .nan => true
  | _ => false

end JsNumber

/-- The options a `String` path declares. -/
structure StringOptions where
  required : Bool := false
  enum : Option (List String) := none
  trim : Bool := false
  default : Option String := none

/-- The options a `Number` path declares. -/
structure NumberOptions where
  required : Bool := false
  min : Option ℚ := none

/-- The options an `ObjectId` path declares. -/
structure ObjectIdOptions where
  ref : String
  required : Bool := false

/-- The defaults a `Date` path can declare: here only the function `Date.now`. -/
inductive DateDefault where
  | dateNow

/-- The options a `Date` path declares. -/
structure DateOptions where
  required : Bool := false
  default : Option DateDefault := none

/-- The options a `[Number]` path declares. -/
structure NumberArrayOptions where
  required : Bool := false

/-- The declaration of the nested path `location`: its `type` key is itself an
object with a `type` key, so Mongoose reads `location` as a nested object with
the two sub-paths `location.type` and `location.coordinates`. -/
structure LocationSchema where
  type : StringOptions
  coordinates : NumberArrayOptions

/-- The shape of the schema declaration of `src/donation-model.js`: the paths
and the indexes added with `index`, each a path with its index type. -/
structure Schema where
  donor : ObjectIdOptions
  category : StringOptions
  description : StringOptions
  quantity : NumberOptions
  pickupTime : DateOptions
  location : LocationSchema
  status : StringOptions
  createdAt : DateOptions
  indexes : List (String × String)

/-- The declaration `DonationSchema` (lines 3-47) with its geospatial index
`DonationSchema.index({ location: '2dsphere' })` (line 50). -/
def DonationSchema : Schema where
  donor := { ref := "User", required := true }
  category :=
    { enum := some ["vegetarian", "non-vegetarian", "vegan", "bakery"], required := true }
  description := { required := true, trim := true }
  quantity := { required := true, min := some 1 }
  pickupTime := { required := true }
  location :=
    { type := { default := some "Point" }
      coordinates := { required := true } }
  status := { enum := some ["available", "reserved", "donated"], default := some "available" }
  createdAt := { default := some .dateNow }
  indexes := [("location", "2dsphere")]

/-- The `location` object as handed to `new Donation`. -/
structure LocationInput where
  type : Option String
  coordinates : Option (List JsNumber)
  deriving DecidableEq

/-- The object handed to `new Donation`; `none` is an absent (`undefined`)
property.  Object ids are hex strings, dates are milliseconds since the epoch. -/
structure DonationInput where
  donor : Option String
  category : Option String
  description : Option String
  quantity : Option JsNumber
  pickupTime : Option Int
  location : Option LocationInput
  status : Option String
  createdAt : Option Int
  deriving DecidableEq

/-- The nested path `location` of a document: always an object, whose two
sub-paths may be undefined. -/
structure Location where
  type : Option String
  coordinates : Option (List JsNumber)
  deriving DecidableEq

/-- A `Donation` document. -/
structure Donation where
  donor : Option String
  category : Option String
  description : Option String
  quantity : Option JsNumber
  pickupTime : Option Int
  location : Location
  status : Option String
  createdAt : Option Int
  deriving DecidableEq

/-- Casting to `Number`: `NaN` fails the cast, any other number is kept. -/
def castNumber (v : JsNumber) : Option JsNumber :=
  if v.isNaN then none else some v

/-- Casting to `[Number]`: fails when an element fails. -/
def castNumberArray (vs : List JsNumber) : Option (List JsNumber) :=
  if vs.any JsNumber.isNaN then none else some vs

/-- A declared `default` fills a path that is `undefined` and leaves a supplied
value alone. -/
def applyDefault {α : Type} (dflt : α) : Option α → Option α
  | none => some dflt
  | some v => some v

/-- Setting a `String` path: the `trim` setter, then the declared default. -/
def setString (o : StringOptions) (v : Option String) : Option String :=
  match (if o.trim then v.map jsTrim else v) with
  | some s => some s
  | none => o.default

/-- Setting a `Number` path: a value that fails its cast is not set. -/
def setNumber (v : Option JsNumber) : Option JsNumber := v.bind castNumber

/-- Setting a `Date` path at time `now`: the default `Date.now` is called when
the document is built. -/
def setDate (o : DateOptions) (now : Int) (v : Option Int) : Option Int :=
  match v, o.default with
  | some t, _ => some t
  | none, some .dateNow => some now
  | none, none => none

/-- Whether an empty array at the array path `path` is left unset: the path
itself carries a `2dsphere` or `2d` index, or the path is `parent.coordinates`
and `parent` carries a `2dsphere` index (the shape of GeoJSON). -/
def emptyArrayUnset (indexes : List (String × String)) (path parent : String) : Bool :=
  indexes.any fun ix =>
    (ix.1 == path && (ix.2 == "2dsphere" || ix.2 == "2d")) ||
      (path == parent ++ ".coordinates" && ix.1 == parent && ix.2 == "2dsphere")

/-- Setting a `[Number]` path: an array path has the implicit default `[]`, used
when no value is supplied or the supplied one fails its cast; an empty array,
supplied or default, is cast to `undefined` when `unsetEmpty` holds, so the
path stays unset. -/
def setNumberArray (unsetEmpty : Bool) (v : Option (List JsNumber)) :
    Option (List JsNumber) :=
  match applyDefault [] (v.bind castNumberArray) with
  | some [] => if unsetEmpty then none else some []
  | r => r

/-- The document `new Donation(input)` built at time `now`. -/
def construct (now : Int) (input : DonationInput) : Donation where
  donor := input.donor
  category := setString DonationSchema.category input.category
  description := setString DonationSchema.description input.description
  quantity := setNumber input.quantity
  pickupTime := setDate DonationSchema.pickupTime now input.pickupTime
  location :=
    { type := setString DonationSchema.location.type (input.location.bind (·.type))
      coordinates :=
        setNumberArray
          (emptyArrayUnset DonationSchema.indexes "location.coordinates" "location")
          (input.location.bind (·.coordinates)) }
  status := setString DonationSchema.status input.status
  createdAt := setDate DonationSchema.createdAt now input.createdAt

/-- The validators a schema can declare, and the cast failure. -/
inductive ValidatorKind where
  | cast
  | required
  | enum
  | min
  deriving DecidableEq

/-- One entry of a validation error: the failing path and what failed there. -/
structure ValidationError where
  path : String
  kind : ValidatorKind
  deriving DecidableEq

/-- The cast errors of `input`: with typed input only a `NaN` fails its cast,
as `quantity` or as an element of `location.coordinates`, where the error is
reported on the path of the first such element, `location.coordinates.<index>`. -/
def castErrors (input : DonationInput) : List ValidationError :=
  (match input.quantity with
    | some v => if (castNumber v).isNone then [⟨"quantity", .cast⟩] else []
    | none => []) ++
  (match input.location.bind (·.coordinates) with
    | some vs =>
      if (castNumberArray vs).isNone then
        [⟨"location.coordinates." ++ toString (vs.findIdx JsNumber.isNaN), .cast⟩]
      else []
    | none => [])

/-- The `required` check of every type but `String`: the value is neither `null`
nor `undefined`. -/
def checkRequired {α : Type} (v : Option α) : Bool := v.isSome

/-- The `required` check of `String`: a string of non-zero length. -/
def checkRequiredString (v : Option String) : Bool :=
  match v with
  | some s => s.length != 0
  | none => false

/-- The `enum` validator: passes on `undefined`, else the value must be listed. -/
def enumValidator (values : List String) (v : Option String) : Bool :=
  match v with
  | none => true
  | some s => values.contains s

/-- The `min` validator: passes on `undefined`, else `v >= min`. -/
def minValidator (min : ℚ) (v : Option JsNumber) : Bool :=
  match v with
  | none => true
  | some x => x.ge min

/-- Validation of one path: skipped when the path already has a cast error;
otherwise the validators run in order and the first failure is reported. -/
def doValidate (invalid : List ValidationError) (path : String)
    (validators : List (ValidatorKind × Bool)) : List ValidationError :=
  if invalid.any (fun e => e.path == path) then []
  else match validators.find? (fun v => !v.2) with
    | some v => [⟨path, v.1⟩]
    | none => []

/-- The `required` validator of a path, when declared; it is always the first. -/
def requiredValidators (required passes : Bool) : List (ValidatorKind × Bool) :=
  if required then [(.required, passes)] else []

/-- The validators of a `String` path. -/
def stringValidators (o : StringOptions) (v : Option String) : List (ValidatorKind × Bool) :=
  requiredValidators o.required (checkRequiredString v) ++
    (match o.enum with
      | some values => [(.enum, enumValidator values v)]
      | none => [])

/-- The validators of a `Number` path. -/
def numberValidators (o : NumberOptions) (v : Option JsNumber) : List (ValidatorKind × Bool) :=
  requiredValidators o.required (checkRequired v) ++
    (match o.min with
      | some m => [(.min, minValidator m v)]
      | none => [])

/-- The validators of `DonationSchema`, path by path. -/
def validate (invalid : List ValidationError) (d : Donation) : List ValidationError :=
  doValidate invalid "donor"
    (requiredValidators DonationSchema.donor.required (checkRequired d.donor)) ++
  doValidate invalid "category" (stringValidators DonationSchema.category d.category) ++
  doValidate invalid "description"
    (stringValidators DonationSchema.description d.description) ++
  doValidate invalid "quantity" (numberValidators DonationSchema.quantity d.quantity) ++
  doValidate invalid "pickupTime"
    (requiredValidators DonationSchema.pickupTime.required (checkRequired d.pickupTime)) ++
  doValidate invalid "location.type"
    (stringValidators DonationSchema.location.type d.location.type) ++
  doValidate invalid "location.coordinates"
    (requiredValidators DonationSchema.location.coordinates.required
      (checkRequired d.location.coordinates)) ++
  doValidate invalid "status" (stringValidators DonationSchema.status d.status) ++
  doValidate invalid "createdAt"
    (requiredValidators DonationSchema.createdAt.required (checkRequired d.createdAt))

/-- Every error schema validation reports for `input` built at time `now`. -/
def validationErrors (now : Int) (input : DonationInput) : List ValidationError :=
  castErrors input ++ validate (castErrors input) (construct now input)

/-- Whether schema validation accepts the document. -/
def accepts (now : Int) (input : DonationInput) : Bool :=
  (validationErrors now input).isEmpty

/-- The write `new Donation(input).save()` as far as the schema decides it: the
stored document, or the validation errors. -/
def saveDonation (now : Int) (input : DonationInput) :
    Except (List ValidationError) Donation :=
  if accepts now input then .ok (construct now input)
  else .error (validationErrors now input)

/-- A document is valid apart from `path`: every error reported, if any, is on `path`. -/
def OtherwiseValid (now : Int) (input : DonationInput) (path : String) : Prop :=
  ∀ e ∈ validationErrors now input, e.path = path

/-- A donation with every declared field supplied. -/
def sampleInput : DonationInput where
  donor := some "64b7f0c2a1d3e4f5a6b7c8d9"
  category := some "vegan"
  description := some "  Fresh bread "
  quantity := some (.finite 1)
  pickupTime := some 1700000000000
  location := some ⟨some "Point", some [.finite 77, .finite 28]⟩
  status := some "reserved"
  createdAt := some 1690000000000

/-! ## Lemmas on the handlers -/

theorem login_of_unknownEmail {σ : Type} (U : UserModel σ) (J : Jwt) (secret : Val)
    (req : Request) (db : σ) (h : UnknownEmail U req db) :
    (login U J secret req db).result = .ok invalidCredentials := by
  obtain ⟨hb, hf⟩ := h
  simp [login, loginTry, destructureBody, hb, hf, invalidCredentials]

theorem login_of_wrongPassword {σ : Type} (U : UserModel σ) (J : Jwt) (secret : Val)
    (req : Request) (db : σ) (h : WrongPassword U req db) :
    (login U J secret req db).result = .ok invalidCredentials := by
  obtain ⟨hb, u, hf, hc⟩ := h
  simp [login, loginTry, destructureBody, hb, hf, hc, Val.truthy, invalidCredentials]

/-! ## Theorems on the auth controller -/

/-- C1: a login that fails on an unknown email and a login that fails on a wrong
password both answer exactly `401 { message: 'Invalid credentials' }`, a body
without a `token`, so the two responses are equal. -/
theorem login_failure_indistinguishable {σ₁ σ₂ : Type}
    (U₁ : UserModel σ₁) (J₁ : Jwt) (secret₁ : Val) (req₁ : Request) (db₁ : σ₁)
    (U₂ : UserModel σ₂) (J₂ : Jwt) (secret₂ : Val) (req₂ : Request) (db₂ : σ₂)
    (h₁ : UnknownEmail U₁ req₁ db₁) (h₂ : WrongPassword U₂ req₂ db₂) :
    (login U₁ J₁ secret₁ req₁ db₁).result
        = .ok ⟨401, .object [("message", .str "Invalid credentials")]⟩ ∧
      (login U₂ J₂ secret₂ req₂ db₂).result
        = .ok ⟨401, .object [("message", .str "Invalid credentials")]⟩ ∧
      (login U₁ J₁ secret₁ req₁ db₁).result = (login U₂ J₂ secret₂ req₂ db₂).result ∧
      invalidCredentials.body.hasField "token" = false := by
  have e₁ := login_of_unknownEmail U₁ J₁ secret₁ req₁ db₁ h₁
  have e₂ := login_of_wrongPassword U₂ J₂ secret₂ req₂ db₂ h₂
  refine ⟨e₁, e₂, e₁.trans e₂.symm, ?_⟩
  simp [invalidCredentials, Val.hasField, Val.lookupField]

/-- An instance: with Ana stored, one login names an unknown email and another
sends a wrong password for Ana. -/
theorem login_failure_indistinguishable_witness :
    UnknownEmail memModel (mkRequest [("email", "b@x.com"), ("password", "pw123")]) [ana] ∧
      WrongPassword memModel (mkRequest [("email", "a@x.com"), ("password", "nope")]) [ana] ∧
      (login memModel constJwt (.str "s")
          (mkRequest [("email", "b@x.com"), ("password", "pw123")]) [ana]).result
        = (login memModel constJwt (.str "s")
          (mkRequest [("email", "a@x.com"), ("password", "nope")]) [ana]).result := by
  have h₁ : UnknownEmail memModel
      (mkRequest [("email", "b@x.com"), ("password", "pw123")]) [ana] := by
    refine ⟨rfl, ?_⟩
    simp [memModel, memFindOne, mkRequest, emailQuery, Val.prop, Val.lookupField, ana]
  have h₂ : WrongPassword memModel
      (mkRequest [("email", "a@x.com"), ("password", "nope")]) [ana] := by
    refine ⟨rfl, ana, ?_, ?_⟩
    · simp [memModel, memFindOne, mkRequest, emailQuery, Val.prop, Val.lookupField, ana]
    · simp [memModel, mkRequest, Val.prop, Val.lookupField, ana]
  exact ⟨h₁, h₂, (login_failure_indistinguishable memModel constJwt (.str "s") _ [ana]
    memModel constJwt (.str "s") _ [ana] h₁ h₂).2.2.1⟩

/-- C2: when the lookup by the request's email finds a user, `register` answers
`400 { message: 'User already exists' }`, a body without a `token`; the only
call made is that lookup (no `save`), and the user directory is the one it
started with. -/
theorem register_existing_email {σ : Type} (U : UserModel σ) (J : Jwt) (secret : Val)
    (req : Request) (db : σ) (existing : UserDoc)
    (hb : req.body.isNullish = false)
    (hf : U.findOne (emailQuery (req.body.prop "email")) db = .ok (some existing)) :
    (register U J secret req db).result
        = .ok ⟨400, .object [("message", .str "User already exists")]⟩ ∧
      (∀ r, (register U J secret req db).result = .ok r → r.body.hasField "token" = false) ∧
      (register U J secret req db).calls = [.findOne (emailQuery (req.body.prop "email"))] ∧
      (∀ doc, Call.save doc ∉ (register U J secret req db).calls) ∧
      (register U J secret req db).db = db := by
  have hr : (register U J secret req db).result
      = .ok ⟨400, .object [("message", .str "User already exists")]⟩ := by
    simp [register, registerTry, destructureBody, hb, hf]
  have hc : (register U J secret req db).calls
      = [.findOne (emailQuery (req.body.prop "email"))] := by
    simp [register, registerTry, destructureBody, hb, hf]
  refine ⟨hr, ?_, hc, ?_, ?_⟩
  · intro r h
    rw [hr] at h
    cases h
    simp [Val.hasField, Val.lookupField]
  · intro doc
    rw [hc]
    simp
  · simp [register, registerTry, destructureBody, hb, hf]

/-- An instance: registering Ana's email again. -/
theorem register_existing_email_witness :
    (register memModel constJwt (.str "s")
        (mkRequest [("name", "Ana"), ("email", "a@x.com"), ("password", "pw123"),
          ("userType", "donor")]) [ana]).result
        = .ok ⟨400, .object [("message", .str "User already exists")]⟩ ∧
      (register memModel constJwt (.str "s")
        (mkRequest [("name", "Ana"), ("email", "a@x.com"), ("password", "pw123"),
          ("userType", "donor")]) [ana]).db = [ana] := by
  have h := register_existing_email memModel constJwt (.str "s")
    (mkRequest [("name", "Ana"), ("email", "a@x.com"), ("password", "pw123"),
      ("userType", "donor")]) [ana] ana rfl
    (by simp [memModel, memFindOne, mkRequest, emailQuery, Val.prop, Val.lookupField, ana])
  exact ⟨h.1, h.2.2.2.2⟩

/-- C3: when the lookup finds nobody, `save` succeeds and signing succeeds,
`register` answers 201; the token in the body is the result of
`sign({ id, email }, secret, { expiresIn: '1h' })` on the saved user, so any
decoder that inverts `sign` yields that id and email; the `user` object has
exactly the properties `id`, `name`, `email`, `userType` of the saved user and
no `password`; the directory is the one `save` produced. -/
theorem register_new_email {σ : Type} (U : UserModel σ) (J : Jwt) (secret : Val)
    (req : Request) (db db' : σ) (saved : UserDoc) (token : String)
    (hb : req.body.isNullish = false)
    (hf : U.findOne (emailQuery (req.body.prop "email")) db = .ok none)
    (hs : U.save (U.create (registerFields req)) db = (.ok saved, db'))
    (ht : J.sign (.object [("id", saved._id), ("email", saved.email)]) secret
      (.object [("expiresIn", .str "1h")]) = .ok token) :
    (register U J secret req db).result
        = .ok ⟨201, .object [("message", .str "User registered successfully"),
            ("token", .str token),
            ("user", .object [("id", saved._id), ("name", saved.name),
              ("email", saved.email), ("userType", saved.userType)])]⟩ ∧
      (∀ decode : String → Option Val,
        (∀ payload t, J.sign payload secret tokenOptions = .ok t → decode t = some payload) →
        ∃ payload, decode token = some payload ∧
          payload.prop "id" = saved._id ∧ payload.prop "email" = saved.email) ∧
      (publicUser saved).keys = ["id", "name", "email", "userType"] ∧
      (publicUser saved).hasField "password" = false ∧
      (register U J secret req db).db = db' := by
  have ht' : J.sign (tokenPayload saved) secret tokenOptions = .ok token := ht
  have hs' : U.save (U.create (.object [("name", req.body.prop "name"),
      ("email", req.body.prop "email"), ("password", req.body.prop "password"),
      ("userType", req.body.prop "userType")])) db = (.ok saved, db') := hs
  refine ⟨?_, ?_, ?_, ?_, ?_⟩
  · simp [register, registerTry, destructureBody, hb, hf, hs', ht', publicUser]
  · intro decode hd
    refine ⟨tokenPayload saved, hd _ _ ht', ?_, ?_⟩ <;>
      simp [tokenPayload, Val.prop, Val.lookupField]
  · simp [publicUser, Val.keys]
  · simp [publicUser, Val.hasField, Val.lookupField]
  · simp [register, registerTry, destructureBody, hb, hf, hs', ht']

/-- An instance: registering Ana in an empty directory. -/
theorem register_new_email_witness :
    (register memModel constJwt (.str "s")
        (mkRequest [("name", "Ana"), ("email", "a@x.com"), ("password", "pw123"),
          ("userType", "donor")]) []).result
      = .ok ⟨201, .object [("message", .str "User registered successfully"),
          ("token", .str "t0"),
          ("user", .object [("id", .str "u1"), ("name", .str "Ana"),
            ("email", .str "a@x.com"), ("userType", .str "donor")])]⟩ :=
  (register_new_email memModel constJwt (.str "s")
    (mkRequest [("name", "Ana"), ("email", "a@x.com"), ("password", "pw123"),
      ("userType", "donor")]) []
    [⟨.str "u1", .str "Ana", .str "a@x.com", .str "pw123", .str "donor"⟩]
    ⟨.str "u1", .str "Ana", .str "a@x.com", .str "pw123", .str "donor"⟩ "t0" rfl
    (by simp [memModel, memFindOne, mkRequest, emailQuery, Val.prop, Val.lookupField])
    (by simp [memModel, registerFields, mkRequest, Val.prop, Val.lookupField])
    rfl).1

/-- C4: when the lookup finds a user, `comparePassword` answers `true` and
signing succeeds, `login` answers 200; the token is the result of
`sign({ id, email }, secret, { expiresIn: '1h' })` on the stored user, the same
call `register` makes; the `user` object has exactly the properties `id`,
`name`, `email`, `userType` of the stored user and no `password`. -/
theorem login_success {σ : Type} (U : UserModel σ) (J : Jwt) (secret : Val)
    (req : Request) (db : σ) (user : UserDoc) (token : String)
    (hb : req.body.isNullish = false)
    (hf : U.findOne (emailQuery (req.body.prop "email")) db = .ok (some user))
    (hc : U.comparePassword user (req.body.prop "password") = .ok (.bool true))
    (ht : J.sign (.object [("id", user._id), ("email", user.email)]) secret
      (.object [("expiresIn", .str "1h")]) = .ok token) :
    (login U J secret req db).result
        = .ok ⟨200, .object [("token", .str token),
            ("user", .object [("id", user._id), ("name", user.name),
              ("email", user.email), ("userType", user.userType)])]⟩ ∧
      (∀ decode : String → Option Val,
        (∀ payload t, J.sign payload secret tokenOptions = .ok t → decode t = some payload) →
        ∃ payload, decode token = some payload ∧
          payload.prop "id" = user._id ∧ payload.prop "email" = user.email) ∧
      (publicUser user).keys = ["id", "name", "email", "userType"] ∧
      (publicUser user).hasField "password" = false := by
  have ht' : J.sign (tokenPayload user) secret tokenOptions = .ok token := ht
  refine ⟨?_, ?_, ?_, ?_⟩
  · simp [login, loginTry, destructureBody, hb, hf, hc, ht', Val.truthy, publicUser,
      Response.json]
  · intro decode hd
    refine ⟨tokenPayload user, hd _ _ ht', ?_, ?_⟩ <;>
      simp [tokenPayload, Val.prop, Val.lookupField]
  · simp [publicUser, Val.keys]
  · simp [publicUser, Val.hasField, Val.lookupField]

/-- An instance: Ana logs in with her password. -/
theorem login_success_witness :
    (login memModel constJwt (.str "s")
        (mkRequest [("email", "a@x.com"), ("password", "pw123")]) [ana]).result
      = .ok ⟨200, .object [("token", .str "t0"),
          ("user", .object [("id", .str "u0"), ("name", .str "Ana"),
            ("email", .str "a@x.com"), ("userType", .str "donor")])]⟩ :=
  (login_success memModel constJwt (.str "s")
    (mkRequest [("email", "a@x.com"), ("password", "pw123")]) [ana] ana "t0" rfl
    (by simp [memModel, memFindOne, mkRequest, emailQuery, Val.prop, Val.lookupField, ana])
    (by simp [memModel, mkRequest, Val.prop, Val.lookupField, ana])
    rfl).1

theorem registerTry_error_iff {σ : Type} (U : UserModel σ) (J : Jwt) (secret : Val)
    (req : Request) (db : σ) (e : Val) :
    (registerTry U J secret req db).result = .error e ↔
      RegisterThrows U J secret req db e := by
  unfold RegisterThrows
  cases hb : req.body.isNullish
  · cases hf : U.findOne (emailQuery (req.body.prop "email")) db with
    | error e' => simp [registerTry, destructureBody, hb, hf]
    | ok o =>
      cases o with
      | some u => simp [registerTry, destructureBody, hb, hf]
      | none =>
        have hs : ∃ r db', U.save (U.create (.object [("name", req.body.prop "name"),
            ("email", req.body.prop "email"), ("password", req.body.prop "password"),
            ("userType", req.body.prop "userType")])) db = (r, db') := ⟨_, _, rfl⟩
        obtain ⟨r, db', hs⟩ := hs
        have hs' : U.save (U.create (registerFields req)) db = (r, db') := hs
        cases r with
        | error e' => simp [registerTry, destructureBody, hb, hf, hs, hs']
        | ok saved =>
          cases ht : J.sign (tokenPayload saved) secret tokenOptions <;>
            simp [registerTry, destructureBody, hb, hf, hs, hs', ht]
  · simp [registerTry, destructureBody, hb]

theorem loginTry_error_iff {σ : Type} (U : UserModel σ) (J : Jwt) (secret : Val)
    (req : Request) (db : σ) (e : Val) :
    (loginTry U J secret req db).result = .error e ↔
      LoginThrows U J secret req db e := by
  unfold LoginThrows
  cases hb : req.body.isNullish
  · cases hf : U.findOne (emailQuery (req.body.prop "email")) db with
    | error e' => simp [loginTry, destructureBody, hb, hf]
    | ok o =>
      cases o with
      | none => simp [loginTry, destructureBody, hb, hf]
      | some u =>
        cases hc : U.comparePassword u (req.body.prop "password") with
        | error e' => simp [loginTry, destructureBody, hb, hf, hc]
        | ok m =>
          cases hm : m.truthy
          · simp [loginTry, destructureBody, hb, hf, hc, hm]
          · cases ht : J.sign (tokenPayload u) secret tokenOptions <;>
              simp [loginTry, destructureBody, hb, hf, hc, hm, ht]
  · simp [loginTry, destructureBody, hb]

theorem catchBlock_of_not_nullish (label : String) (e : Val) (h : e.isNullish = false) :
    catchBlock label e
      = .ok ⟨500, .object [("message", .str label), ("error", e.prop "message")]⟩ := by
  simp [catchBlock, readProp, h]

/-- When a step of `register` or `login` throws a value other than `null` or
`undefined`, the handler answers 500 with the body
`{ message: 'Registration failed' | 'Login failed', error: <the thrown value's message> }`;
and when no step can throw `null` or `undefined`, the handler ends with a
response. -/
theorem handlers_catch_non_nullish {σ : Type} (U : UserModel σ) (J : Jwt) (secret : Val)
    (req : Request) (db : σ) :
    (∀ e, RegisterThrows U J secret req db e → e.isNullish = false →
      (register U J secret req db).result
        = .ok ⟨500, .object [("message", .str "Registration failed"),
            ("error", e.prop "message")]⟩) ∧
    (∀ e, LoginThrows U J secret req db e → e.isNullish = false →
      (login U J secret req db).result
        = .ok ⟨500, .object [("message", .str "Login failed"),
            ("error", e.prop "message")]⟩) ∧
    ((∀ e, RegisterThrows U J secret req db e → e.isNullish = false) →
      ∃ r, (register U J secret req db).result = .ok r) ∧
    ((∀ e, LoginThrows U J secret req db e → e.isNullish = false) →
      ∃ r, (login U J secret req db).result = .ok r) := by
  have hreg : ∀ e, RegisterThrows U J secret req db e → e.isNullish = false →
      (register U J secret req db).result
        = .ok ⟨500, .object [("message", .str "Registration failed"),
            ("error", e.prop "message")]⟩ := by
    intro e he hn
    rw [← registerTry_error_iff] at he
    simp [register, he, catchBlock_of_not_nullish _ e hn]
  have hlog : ∀ e, LoginThrows U J secret req db e → e.isNullish = false →
      (login U J secret req db).result
        = .ok ⟨500, .object [("message", .str "Login failed"),
            ("error", e.prop "message")]⟩ := by
    intro e he hn
    rw [← loginTry_error_iff] at he
    simp [login, he, catchBlock_of_not_nullish _ e hn]
  refine ⟨hreg, hlog, ?_, ?_⟩
  · intro h
    cases hr : (registerTry U J secret req db).result with
    | ok r => exact ⟨r, by simp [register, hr]⟩
    | error e =>
      have ht := (registerTry_error_iff U J secret req db e).mp hr
      exact ⟨_, hreg e ht (h e ht)⟩
  · intro h
    cases hr : (loginTry U J secret req db).result with
    | ok r => exact ⟨r, by simp [login, hr]⟩
    | error e =>
      have ht := (loginTry_error_iff U J secret req db e).mp hr
      exact ⟨_, hlog e ht (h e ht)⟩

/-- An instance: the lookup rejects with an error object, and a request arrives
without a body; both runs end in a 500 response carrying the message. -/
theorem handlers_catch_non_nullish_instance :
    (register (failingModel (.object [("message", .str "connection lost")])) constJwt
        (.str "s") (mkRequest [("email", "a@x.com")]) ()).result
        = .ok ⟨500, .object [("message", .str "Registration failed"),
            ("error", .str "connection lost")]⟩ ∧
      (login memModel constJwt (.str "s") ⟨.undefined⟩ [ana]).result
        = .ok ⟨500, .object [("message", .str "Login failed"),
            ("error",
              .str "Cannot destructure property 'email' of 'req.body' as it is undefined.")]⟩ :=
  ⟨(handlers_catch_non_nullish
      (failingModel (.object [("message", .str "connection lost")])) constJwt
      (.str "s") (mkRequest [("email", "a@x.com")]) ()).1 _ (Or.inr ⟨rfl, Or.inl rfl⟩) rfl,
    (handlers_catch_non_nullish memModel constJwt (.str "s") ⟨.undefined⟩ [ana]).2.1
      (typeError "Cannot destructure property 'email' of 'req.body' as it is undefined.")
      (Or.inl ⟨rfl, rfl⟩) rfl⟩

/-- C5, at its failing input: the lookup rejects with `undefined` (in `register`)
or with `null` (in `login`); the step throws, the `catch` block is entered, the
read `error.message` throws a `TypeError` there, no response is sent, and the
handler ends with that exception. -/
theorem handlers_escape_on_nullish_throw :
    (RegisterThrows (failingModel .undefined) constJwt (.str "s")
        (mkRequest [("name", "Ana"), ("email", "a@x.com"), ("password", "pw123"),
          ("userType", "donor")]) () .undefined ∧
      (register (failingModel .undefined) constJwt (.str "s")
        (mkRequest [("name", "Ana"), ("email", "a@x.com"), ("password", "pw123"),
          ("userType", "donor")]) ()).result
        = .error (typeError "Cannot read properties of undefined (reading 'message')")) ∧
    (LoginThrows (failingModel .null) constJwt (.str "s")
        (mkRequest [("email", "a@x.com"), ("password", "pw123")]) () .null ∧
      (login (failingModel .null) constJwt (.str "s")
        (mkRequest [("email", "a@x.com"), ("password", "pw123")]) ()).result
        = .error (typeError "Cannot read properties of null (reading 'message')")) :=
  ⟨⟨Or.inr ⟨rfl, Or.inl rfl⟩, rfl⟩, ⟨Or.inr ⟨rfl, Or.inl rfl⟩, rfl⟩⟩

/-! ## Lemmas and theorems on the donation schema -/

theorem construct_eq (now : Int) (input : DonationInput) :
    construct now input =
      { donor := input.donor
        category := input.category
        description := input.description.map jsTrim
        quantity := input.quantity.bind castNumber
        pickupTime := input.pickupTime
        location :=
          { type := applyDefault "Point" (input.location.bind (·.type))
            coordinates := setNumberArray true (input.location.bind (·.coordinates)) }
        status := applyDefault "available" input.status
        createdAt := applyDefault now input.createdAt } := by
  have h7 : emptyArrayUnset DonationSchema.indexes "location.coordinates" "location"
      = true := by decide
  have h1 : ∀ v : Option String, setString DonationSchema.category v = v := by
    intro v
    cases v <;> rfl
  have h2 : ∀ v : Option String,
      setString DonationSchema.description v = v.map jsTrim := by
    intro v
    cases v <;> rfl
  have h3 : ∀ v : Option Int, setDate DonationSchema.pickupTime now v = v := by
    intro v
    cases v <;> rfl
  have h4 : ∀ v : Option String,
      setString DonationSchema.location.type v = applyDefault "Point" v := by
    intro v
    cases v <;> rfl
  have h5 : ∀ v : Option String,
      setString DonationSchema.status v = applyDefault "available" v := by
    intro v
    cases v <;> rfl
  have h6 : ∀ v : Option Int,
      setDate DonationSchema.createdAt now v = applyDefault now v := by
    intro v
    cases v <;> rfl
  simp only [construct, h1, h2, h3, h4, h5, h6, h7, setNumber]

theorem validate_eq (invalid : List ValidationError) (d : Donation) :
    validate invalid d =
      doValidate invalid "donor" [(.required, checkRequired d.donor)] ++
      doValidate invalid "category" [(.required, checkRequiredString d.category),
        (.enum, enumValidator ["vegetarian", "non-vegetarian", "vegan", "bakery"] d.category)] ++
      doValidate invalid "description" [(.required, checkRequiredString d.description)] ++
      doValidate invalid "quantity" [(.required, checkRequired d.quantity),
        (.min, minValidator 1 d.quantity)] ++
      doValidate invalid "pickupTime" [(.required, checkRequired d.pickupTime)] ++
      doValidate invalid "location.type" [] ++
      doValidate invalid "location.coordinates"
        [(.required, checkRequired d.location.coordinates)] ++
      doValidate invalid "status"
        [(.enum, enumValidator ["available", "reserved", "donated"] d.status)] ++
      doValidate invalid "createdAt" [] := rfl

theorem mem_doValidate_path {inv : List ValidationError} {p : String}
    {vs : List (ValidatorKind × Bool)} {e : ValidationError}
    (h : e ∈ doValidate inv p vs) : e.path = p := by
  unfold doValidate at h
  split at h
  · simp at h
  · split at h
    · simp at h
      rw [h]
    · simp at h

theorem doValidate_eq_nil_of_pass {inv : List ValidationError} {p : String}
    {vs : List (ValidatorKind × Bool)} (h : ∀ v ∈ vs, v.2 = true) :
    doValidate inv p vs = [] := by
  unfold doValidate
  split
  · rfl
  · have hn : vs.find? (fun v => !v.2) = none := by
      rw [List.find?_eq_none]
      intro v hv
      simp [h v hv]
    rw [hn]

theorem coordinates_element_ne (t p : String) (hp : p.data.head? ≠ some 'l') :
    "location.coordinates." ++ t ≠ p := by
  intro h
  apply hp
  rw [← h]
  simp [String.data_append]

theorem mem_castErrors_path {input : DonationInput} {e : ValidationError}
    (h : e ∈ castErrors input) :
    (e.path = "quantity" ∧ ∃ v, input.quantity = some v ∧ v.isNaN = true) ∨
      ∃ t, e.path = "location.coordinates." ++ t := by
  unfold castErrors at h
  rw [List.mem_append] at h
  rcases h with h | h
  · left
    split at h
    · rename_i v hv
      split at h
      · rename_i hc
        simp at h
        refine ⟨by rw [h], v, hv, ?_⟩
        unfold castNumber at hc
        split at hc
        · assumption
        · simp at hc
      · simp at h
    · simp at h
  · right
    split at h
    · split at h
      · simp at h
        exact ⟨_, by rw [h]⟩
      · simp at h
    · simp at h

theorem accepts_of_no_error_at {now : Int} {input : DonationInput} {p : String}
    (h : OtherwiseValid now input p)
    (hp : ∀ e ∈ validationErrors now input, e.path ≠ p) : accepts now input = true := by
  unfold accepts
  rw [List.isEmpty_iff]
  apply List.eq_nil_iff_forall_not_mem.mpr
  intro e he
  exact hp e he (h e he)


theorem doValidate_nil_iff {p : String} {vs : List (ValidatorKind × Bool)} :
    doValidate [] p vs = [] ↔ ∀ v ∈ vs, v.2 = true := by
  constructor
  · intro h v hv
    unfold doValidate at h
    simp only [List.any_nil, Bool.false_eq_true, if_false] at h
    split at h
    · simp at h
    · rename_i hn
      rw [List.find?_eq_none] at hn
      simpa using hn v hv
  · exact doValidate_eq_nil_of_pass

theorem accepts_iff_nil (now : Int) (input : DonationInput) :
    accepts now input = true ↔
      castErrors input = [] ∧ validate [] (construct now input) = [] := by
  unfold accepts validationErrors
  rw [List.isEmpty_iff, List.append_eq_nil]
  constructor
  · rintro ⟨hc, hv⟩
    rw [hc] at hv
    exact ⟨hc, hv⟩
  · rintro ⟨hc, hv⟩
    rw [hc]
    exact ⟨rfl, hv⟩

theorem validate_nil_iff (d : Donation) :
    validate [] d = [] ↔
      checkRequired d.donor = true ∧
      (checkRequiredString d.category = true ∧ enumValidator ["vegetarian", "non-vegetarian", "vegan", "bakery"] d.category = true) ∧
      checkRequiredString d.description = true ∧
      (checkRequired d.quantity = true ∧ minValidator 1 d.quantity = true) ∧
      checkRequired d.pickupTime = true ∧
      checkRequired d.location.coordinates = true ∧
      enumValidator ["available", "reserved", "donated"] d.status = true := by
  rw [validate_eq]
  simp only [List.append_eq_nil, doValidate_nil_iff]
  simp
  tauto

theorem mem_validate_cases {inv : List ValidationError} {d : Donation} {e : ValidationError}
    (h : e ∈ validate inv d) :
    e ∈ doValidate inv "donor" [(.required, checkRequired d.donor)] ∨
    e ∈ doValidate inv "category" [(.required, checkRequiredString d.category),
      (.enum, enumValidator ["vegetarian", "non-vegetarian", "vegan", "bakery"] d.category)] ∨
    e ∈ doValidate inv "description" [(.required, checkRequiredString d.description)] ∨
    e ∈ doValidate inv "quantity" [(.required, checkRequired d.quantity),
      (.min, minValidator 1 d.quantity)] ∨
    e ∈ doValidate inv "pickupTime" [(.required, checkRequired d.pickupTime)] ∨
    e ∈ doValidate inv "location.type" [] ∨
    e ∈ doValidate inv "location.coordinates"
      [(.required, checkRequired d.location.coordinates)] ∨
    e ∈ doValidate inv "status" [(.enum, enumValidator ["available", "reserved", "donated"] d.status)] ∨
    e ∈ doValidate inv "createdAt" [] := by
  rw [validate_eq] at h
  simp only [List.mem_append] at h
  tauto

theorem JsNumber.not_ge_of_lt {v : JsNumber} {m : ℚ} (h : v.lt m = true) :
    v.ge m = false ∧ v.isNaN = false := by
  cases v <;> simp_all [JsNumber.lt, JsNumber.ge, JsNumber.isNaN]

theorem JsNumber.not_nan_of_ge {v : JsNumber} {m : ℚ} (h : v.ge m = true) :
    v.isNaN = false := by
  cases v <;> simp_all [JsNumber.ge, JsNumber.isNaN]

/-- C6: a document whose quantity is below 1 is rejected; a document whose only
possible errors are on `quantity` and whose quantity is 1 is accepted; in
particular any document with quantity 0 is rejected. -/
theorem quantity_minimum (now : Int) (input : DonationInput) :
    (∀ v, input.quantity = some v → v.lt 1 = true → accepts now input = false) ∧
    (OtherwiseValid now input "quantity" → input.quantity = some (.finite 1) →
      accepts now input = true) ∧
    accepts now { input with quantity := some (.finite 0) } = false := by
  have key : ∀ (inp : DonationInput) v, inp.quantity = some v → v.lt 1 = true →
      accepts now inp = false := by
    intro inp v hq hlt
    obtain ⟨hge, hnan⟩ := JsNumber.not_ge_of_lt hlt
    rw [Bool.eq_false_iff]
    intro hacc
    have hv := ((validate_nil_iff _).mp ((accepts_iff_nil now inp).mp hacc).2).2.2.2.1.2
    simp [construct_eq, hq, castNumber, hnan, minValidator, hge] at hv
  refine ⟨key input, ?_, key _ (.finite 0) rfl (by simp [JsNumber.lt])⟩
  intro hov hq
  apply accepts_of_no_error_at hov
  intro e he
  unfold validationErrors at he
  rw [List.mem_append] at he
  rcases he with he | he
  · rcases mem_castErrors_path he with ⟨_, v, hv, hn⟩ | ⟨t, hp⟩
    · rw [hq] at hv
      cases hv
      simp [JsNumber.isNaN] at hn
    · rw [hp]
      exact coordinates_element_ne t _ (by decide)
  · rcases mem_validate_cases he with h | h | h | h | h | h | h | h | h
    all_goals first
      | (rw [mem_doValidate_path h]; decide)
      | (rw [doValidate_eq_nil_of_pass] at h
         · simp at h
         · simp [construct_eq, hq, castNumber, JsNumber.isNaN, checkRequired, minValidator,
             JsNumber.ge])


/-- An instance: the sample donation is accepted with quantity 1 and rejected
with quantity 0. -/
theorem quantity_minimum_witness :
    OtherwiseValid 0 sampleInput "quantity" ∧
      accepts 0 sampleInput = true ∧
      accepts 0 { sampleInput with quantity := some (.finite 0) } = false :=
  have hov : OtherwiseValid 0 sampleInput "quantity" := by
    intro e he
    have hnil : validationErrors 0 sampleInput = [] := by decide
    rw [hnil] at he
    cases he
  ⟨hov, (quantity_minimum 0 sampleInput).2.1 hov rfl, (quantity_minimum 0 sampleInput).2.2⟩

theorem no_error_at_category {now : Int} {input : DonationInput} {c : String}
    (hc : input.category = some c) (hmem : c ∈ ["vegetarian", "non-vegetarian", "vegan", "bakery"]) :
    ∀ e ∈ validationErrors now input, e.path ≠ "category" := by
  intro e he
  unfold validationErrors at he
  rw [List.mem_append] at he
  rcases he with he | he
  · rcases mem_castErrors_path he with ⟨hp, _⟩ | ⟨t, hp⟩
    · rw [hp]
      decide
    · rw [hp]
      exact coordinates_element_ne t _ (by decide)
  · rcases mem_validate_cases he with h | h | h | h | h | h | h | h | h
    all_goals first
      | (rw [mem_doValidate_path h]; decide)
      | (rw [doValidate_eq_nil_of_pass] at h
         · simp at h
         · have hlen : c.length ≠ 0 := by
             simp only [List.mem_cons, List.mem_singleton, List.not_mem_nil,
               or_false] at hmem
             rcases hmem with rfl | rfl | rfl | rfl <;> decide
           simp [construct_eq, hc, checkRequiredString, enumValidator, hmem, hlen])

theorem no_error_at_status {now : Int} {input : DonationInput}
    (hs : ∀ s, input.status = some s → s ∈ ["available", "reserved", "donated"]) :
    ∀ e ∈ validationErrors now input, e.path ≠ "status" := by
  intro e he
  unfold validationErrors at he
  rw [List.mem_append] at he
  rcases he with he | he
  · rcases mem_castErrors_path he with ⟨hp, _⟩ | ⟨t, hp⟩
    · rw [hp]
      decide
    · rw [hp]
      exact coordinates_element_ne t _ (by decide)
  · rcases mem_validate_cases he with h | h | h | h | h | h | h | h | h
    all_goals first
      | (rw [mem_doValidate_path h]; decide)
      | (rw [doValidate_eq_nil_of_pass] at h
         · simp at h
         · cases hst : input.status with
           | none => simp [construct_eq, hst, applyDefault, enumValidator]
           | some s => simp [construct_eq, hst, applyDefault, enumValidator, hs s hst])

/-- C7: an accepted document has a category among `vegetarian`,
`non-vegetarian`, `vegan`, `bakery`, and a status, when supplied, among
`available`, `reserved`, `donated`, so any other category or status string is
rejected; a document that is valid apart from its category (its status) is
accepted with any listed category (status); `meat` is rejected and `vegan`
is accepted in place of any accepted category. -/
theorem category_status_enum (now : Int) (input : DonationInput) :
    (accepts now input = true →
      (∃ c, input.category = some c ∧
        c ∈ ["vegetarian", "non-vegetarian", "vegan", "bakery"]) ∧
      (∀ s, input.status = some s → s ∈ ["available", "reserved", "donated"])) ∧
    (∀ c, c ∈ ["vegetarian", "non-vegetarian", "vegan", "bakery"] →
      OtherwiseValid now input "category" → input.category = some c →
      accepts now input = true) ∧
    (∀ s, s ∈ ["available", "reserved", "donated"] →
      OtherwiseValid now input "status" → input.status = some s →
      accepts now input = true) ∧
    accepts now { input with category := some "meat" } = false ∧
    (accepts now input = true → accepts now { input with category := some "vegan" } = true) := by
  have only_if : ∀ inp : DonationInput, accepts now inp = true →
      (∃ c, inp.category = some c ∧ c ∈ ["vegetarian", "non-vegetarian", "vegan", "bakery"]) ∧
      (∀ s, inp.status = some s → s ∈ ["available", "reserved", "donated"]) := by
    intro inp hacc
    have hv := (validate_nil_iff _).mp ((accepts_iff_nil now inp).mp hacc).2
    constructor
    · have hcat := hv.2.1.2
      cases hc : inp.category with
      | none => simp [construct_eq, hc, checkRequiredString] at hv
      | some c =>
        refine ⟨c, rfl, ?_⟩
        simpa [construct_eq, hc, enumValidator] using hcat
    · intro s hs
      have hst := hv.2.2.2.2.2.2
      simpa [construct_eq, hs, applyDefault, enumValidator] using hst
  refine ⟨only_if input, ?_, ?_, ?_, ?_⟩
  · intro c hmem hov hc
    exact accepts_of_no_error_at hov (no_error_at_category hc hmem)
  · intro s hmem hov hs
    refine accepts_of_no_error_at hov (no_error_at_status ?_)
    intro s' hs'
    rw [hs] at hs'
    cases hs'
    exact hmem
  · rw [Bool.eq_false_iff]
    intro hacc
    obtain ⟨⟨c, hc, hmem⟩, _⟩ := only_if _ hacc
    simp at hc
    subst hc
    simp at hmem
  · intro hacc
    rw [accepts_iff_nil] at hacc ⊢
    refine ⟨hacc.1, ?_⟩
    have hv := (validate_nil_iff _).mp hacc.2
    rw [validate_nil_iff]
    refine ⟨hv.1, ?_, hv.2.2.1, hv.2.2.2.1, hv.2.2.2.2.1, hv.2.2.2.2.2.1, hv.2.2.2.2.2.2⟩
    simp [construct_eq, checkRequiredString, enumValidator]
    decide


/-- An instance: the sample donation with category `bakery` and status
`donated` is accepted, and is rejected with category `meat`. -/
theorem category_status_enum_witness :
    accepts 0 { sampleInput with category := some "bakery" } = true ∧
      accepts 0 { sampleInput with status := some "donated" } = true ∧
      accepts 0 { sampleInput with category := some "meat" } = false :=
  have hc : OtherwiseValid 0 { sampleInput with category := some "bakery" } "category" := by
    intro e he
    have hnil : validationErrors 0 { sampleInput with category := some "bakery" } = [] := by
      decide
    rw [hnil] at he
    cases he
  have hs : OtherwiseValid 0 { sampleInput with status := some "donated" } "status" := by
    intro e he
    have hnil : validationErrors 0 { sampleInput with status := some "donated" } = [] := by
      decide
    rw [hnil] at he
    cases he
  ⟨(category_status_enum 0 { sampleInput with category := some "bakery" }).2.1 "bakery"
      (by decide) hc rfl,
    (category_status_enum 0 { sampleInput with status := some "donated" }).2.2.1 "donated"
      (by decide) hs rfl,
    (category_status_enum 0 sampleInput).2.2.2.1⟩

/-- C8: in every stored document, a status absent from the input is
`available`, a `createdAt` absent from the input is the time at which the
document was built, and a supplied status or `createdAt` is kept as supplied. -/
theorem defaults_applied (now : Int) (input : DonationInput) (d : Donation)
    (h : saveDonation now input = .ok d) :
    (input.status = none → d.status = some "available") ∧
    (input.createdAt = none → d.createdAt = some now) ∧
    (∀ s, input.status = some s → d.status = some s) ∧
    (∀ t, input.createdAt = some t → d.createdAt = some t) := by
  unfold saveDonation at h
  split at h
  · cases h
    refine ⟨?_, ?_, ?_, ?_⟩
    · intro hs
      simp [construct_eq, hs, applyDefault]
    · intro hs
      simp [construct_eq, hs, applyDefault]
    · intro s hs
      simp [construct_eq, hs, applyDefault]
    · intro t hs
      simp [construct_eq, hs, applyDefault]
  · cases h

/-- An instance: a valid donation sent without status and `createdAt`. -/
theorem defaults_applied_witness :
    saveDonation 1700000000123 { sampleInput with status := none, createdAt := none }
        = .ok (construct 1700000000123
          { sampleInput with status := none, createdAt := none }) ∧
      (construct 1700000000123
          { sampleInput with status := none, createdAt := none }).status = some "available" ∧
      (construct 1700000000123
          { sampleInput with status := none, createdAt := none }).createdAt
        = some 1700000000123 :=
  have h : saveDonation 1700000000123 { sampleInput with status := none, createdAt := none }
      = .ok (construct 1700000000123
        { sampleInput with status := none, createdAt := none }) := rfl
  ⟨h, (defaults_applied _ _ _ h).1 rfl, (defaults_applied _ _ _ h).2.1 rfl⟩

/-- C9: a document that omits `donor`, `category`, `description`, `quantity`,
`pickupTime` or `location` is rejected, and so is one whose `location` has no
`coordinates` or an empty `coordinates` array: with the `2dsphere` index on
`location` the empty default is not kept, and `required` fails on the unset path. -/
theorem missing_required_rejected (now : Int) (input : DonationInput)
    (h : input.donor = none ∨ input.category = none ∨ input.description = none ∨
      input.quantity = none ∨ input.pickupTime = none ∨ input.location = none ∨
      ∃ loc, input.location = some loc ∧
        (loc.coordinates = none ∨ loc.coordinates = some [])) :
    accepts now input = false := by
  rw [Bool.eq_false_iff]
  intro hacc
  have hv := (validate_nil_iff _).mp ((accepts_iff_nil now input).mp hacc).2
  rcases h with h | h | h | h | h | h | ⟨loc, h, hc | hc⟩
  · simpa [construct_eq, h, checkRequired] using hv.1
  · simpa [construct_eq, h, checkRequiredString] using hv.2.1.1
  · simpa [construct_eq, h, checkRequiredString] using hv.2.2.1
  · simpa [construct_eq, h, checkRequired] using hv.2.2.2.1.1
  · simpa [construct_eq, h, checkRequired] using hv.2.2.2.2.1
  · simpa [construct_eq, h, setNumberArray, applyDefault, checkRequired]
      using hv.2.2.2.2.2.1
  · simpa [construct_eq, h, hc, setNumberArray, applyDefault, checkRequired]
      using hv.2.2.2.2.2.1
  · simpa [construct_eq, h, hc, setNumberArray, applyDefault, castNumberArray,
      checkRequired] using hv.2.2.2.2.2.1

/-- An instance: the sample donation is rejected once its `location` is left
out, once its `location` has no `coordinates`, and once its `donor` is left out. -/
theorem missing_required_rejected_witness :
    accepts 0 { sampleInput with location := none } = false ∧
      accepts 0 { sampleInput with location := some ⟨some "Point", none⟩ } = false ∧
      accepts 0 { sampleInput with donor := none } = false ∧
      validationErrors 0 { sampleInput with location := none }
        = [⟨"location.coordinates", .required⟩] :=
  ⟨missing_required_rejected 0 { sampleInput with location := none }
      (Or.inr (Or.inr (Or.inr (Or.inr (Or.inr (Or.inl rfl)))))),
    missing_required_rejected 0 { sampleInput with location := some ⟨some "Point", none⟩ }
      (Or.inr (Or.inr (Or.inr (Or.inr (Or.inr (Or.inr ⟨_, rfl, Or.inl rfl⟩)))))),
    missing_required_rejected 0 { sampleInput with donor := none } (Or.inl rfl),
    by decide⟩

/-- C10, amended: an accepted document has a quantity that is a number, not
`NaN`, and at least 1; it need not be whole. -/
theorem accepted_quantity_at_least_one (now : Int) (input : DonationInput)
    (h : accepts now input = true) :
    ∃ v, input.quantity = some v ∧ v.ge 1 = true ∧ v.isNaN = false ∧
      ∀ q, v = .finite q → 1 ≤ q := by
  have hv := ((validate_nil_iff _).mp ((accepts_iff_nil now input).mp h).2).2.2.2.1
  cases hq : input.quantity with
  | none => simp [construct_eq, hq, checkRequired] at hv
  | some v =>
    have hnan : v.isNaN = false := by
      by_contra hn
      simp [construct_eq, hq, castNumber, hn, checkRequired] at hv
    have hge : v.ge 1 = true := by
      simpa [construct_eq, hq, castNumber, hnan, minValidator] using hv.2
    refine ⟨v, rfl, hge, hnan, ?_⟩
    rintro q rfl
    simpa [JsNumber.ge] using hge

/-- An instance: the sample donation, with quantity 1. -/
theorem accepted_quantity_at_least_one_witness :
    accepts 0 sampleInput = true ∧
      ∃ v, sampleInput.quantity = some v ∧ v.ge 1 = true ∧ v.isNaN = false ∧
        ∀ q, v = .finite q → 1 ≤ q :=
  ⟨by decide, accepted_quantity_at_least_one 0 sampleInput (by decide)⟩

/-- C10, as stated, fails: a document with quantity 1.5 is accepted and 1.5 is
not a whole number. -/
theorem fractional_quantity_accepted :
    accepts 0 { sampleInput with quantity := some (.finite (3 / 2)) } = true ∧
      (JsNumber.finite (3 / 2)).isInteger = false := by
  constructor
  · rw [accepts_iff_nil]
    constructor
    · simp [castErrors, sampleInput, castNumber, castNumberArray, JsNumber.isNaN]
    · rw [validate_nil_iff]
      have h32 : (1 : ℚ) ≤ 3 / 2 := by norm_num
      refine ⟨rfl, ⟨rfl, rfl⟩, by decide, ⟨rfl, ?_⟩, rfl, rfl, rfl⟩
      simp [construct_eq, sampleInput, castNumber, JsNumber.isNaN, minValidator,
        JsNumber.ge, h32]
  · simp [JsNumber.isInteger]
    norm_num

end GSC
